import Mathlib

/-!
Verification of `examples/flashinfer/lambdas/cb-manager/index.py` (CB Manager
Lambda). The Python module manages AWS Capacity Block (CB) reservations:
it queries the provider for existing reservations, guards purchases with a
per-instance-type lock stored in SSM, selects the earliest-starting offering
and purchases it.

Shallow embedding conventions:
- SSM lock state for one instance type is `Option Int`: `some t` is a lock
  record whose `timestamp` field parses to time `t`, `none` is an absent
  parameter.  The lock value also stores the instance type in the source, but
  the source never reads that field back, so only the timestamp is modelled.
- Time is an integer count of minutes (the source compares
  `datetime.now(timezone.utc) - lock_time > timedelta(minutes=10)`; the
  comparison is modelled as `now - t > 10` over `Int`, which preserves the
  sign behaviour of datetime subtraction).
- Provider API calls (`describe_capacity_reservations`,
  `describe_capacity_block_offerings`, `purchase_capacity_block`) are
  modelled by passing the provider's response data in explicitly and
  recording submitted purchases in an effect structure.
- Python exceptions on SSM reads/writes are modelled by explicit `readErr` /
  `writeErr` flags; `ssm.exceptions.ParameterNotFound` on a read is the
  `none` case of the store, as in the source's dedicated `except` arm.
-/

namespace CBManager

/-! ## Lock (lease) model: `check_purchase_lock`, `set_purchase_lock`,
`clear_purchase_lock` (index.py lines 182-252).

`check_purchase_lock` reads the SSM parameter for the instance type's lock:
- generic exception while reading/parsing (`except Exception`) → log a
  warning and return `False` (treated unlocked, store untouched);
- `ParameterNotFound` → return `False`;
- parsed lock older than 10 minutes → delete the parameter, return `False`;
- otherwise → return `True` (locked).
It returns the lock-held boolean and the store as the call leaves it. -/
def check_purchase_lock (now : Int) (readErr : Bool) (store : Option Int) :
    Bool × Option Int :=
  if readErr then (false, store)
  else
    match store with
    | none => (false, none)
    | some t =>
      if now - t > 10 then (false, none)
      else (true, some t)

/-- `set_purchase_lock` (lines 213-240): call `check_purchase_lock`; if it
reports locked, return `False`.  Otherwise `put_parameter` a fresh lock
stamped `now`; a write exception returns `False` with no lease written. -/
def set_purchase_lock (now : Int) (readErr writeErr : Bool)
    (store : Option Int) : Bool × Option Int :=
  let c := check_purchase_lock now readErr store
  if c.1 then (false, c.2)
  else if writeErr then (false, c.2)
  else (true, some now)

/-- `clear_purchase_lock` (lines 243-252): `delete_parameter` on the lock key;
`ParameterNotFound` is passed over and any other exception only logs a
warning, so the call never raises (its Python return type is `None`; the
model returns the resulting store, the parameter deleted). -/
def clear_purchase_lock (_store : Option Int) : Option Int :=
  none

/-! ## Reservation directory: `get_active_capacity_blocks` (lines 84-125). -/

/-- A capacity reservation as returned by
`ec2.describe_capacity_reservations`: the fields the source reads.
Timestamps are their `isoformat()` strings; `endDate = none` models a
reservation without an `EndDate` (an open-ended, non-capacity-block
reservation). -/
structure CapacityReservation where
  capacityReservationId : String
  state : String
  instanceType : String
  availabilityZone : String
  availableInstanceCount : Nat
  totalInstanceCount : Nat
  startDate : Option String
  endDate : Option String
  deriving DecidableEq, Repr

/-- The dict built for each kept reservation (lines 109-118). -/
structure CBRecord where
  reservation_id : String
  state : String
  instance_type : String
  availability_zone : String
  available_capacity : Nat
  total_capacity : Nat
  start_date : Option String
  end_date : Option String
  deriving DecidableEq, Repr

def toCBRecord (cr : CapacityReservation) : CBRecord :=
  { reservation_id := cr.capacityReservationId
    state := cr.state
    instance_type := cr.instanceType
    availability_zone := cr.availabilityZone
    available_capacity := cr.availableInstanceCount
    total_capacity := cr.totalInstanceCount
    start_date := cr.startDate
    end_date := cr.endDate }

/-- The server-side filters the source passes to
`describe_capacity_reservations`: instance type, state in
`{active, pending, payment-pending}`, and availability zone only when one is
given (lines 90-96). -/
def matchesReservationFilters (instance_type : String) (az : Option String)
    (cr : CapacityReservation) : Bool :=
  cr.instanceType = instance_type &&
    (cr.state = "active" || cr.state = "pending" ||
      cr.state = "payment-pending") &&
    (match az with
     | none => true
     | some z => cr.availabilityZone = z)

/-- `get_active_capacity_blocks(instance_type, availability_zone)`:
the provider applies the filters; the source then keeps only reservations
with a truthy `EndDate` (capacity blocks) and builds the result dicts.
`reservations` is the provider's backing data. -/
def get_active_capacity_blocks (reservations : List CapacityReservation)
    (instance_type : String) (az : Option String) : List CBRecord :=
  ((reservations.filter (matchesReservationFilters instance_type az)).filter
      (fun cr => cr.endDate.isSome)).map toCBRecord

/-! ## Offer catalog: `get_capacity_block_offerings` (lines 128-179) and
offer selection (lines 421-423). -/

/-- An offering dict as built from a `describe_capacity_block_offerings`
entry (lines 162-171); `start_date` / `end_date` are `isoformat()` strings
(ISO-8601 UTC strings compare chronologically as strings, and the source
compares them as strings). -/
structure Offering where
  offering_id : String
  instance_type : String
  availability_zone : String
  instance_count : Nat
  start_date : String
  end_date : String
  duration_hours : Nat
  upfront_fee : String
  deriving DecidableEq, Repr

/-- `get_capacity_block_offerings`: the instance type, duration and forward
time window are passed server-side (the provider's response `catalog` is
already scoped to them); the availability-zone filter is applied client-side
only when a truthy zone is given (lines 156-159). -/
def get_capacity_block_offerings (catalog : List Offering)
    (az : Option String) : List Offering :=
  match az with
  | none => catalog
  | some z => if z = "" then catalog
              else catalog.filter (fun o => o.availability_zone = z)

/-- The comparison key of `offerings.sort(key=lambda x: x['start_date'])`. -/
def offerLE (a b : Offering) : Prop := a.start_date ≤ b.start_date

instance : DecidableRel offerLE := fun a b =>
  inferInstanceAs (Decidable (a.start_date ≤ b.start_date))

/-- `offerings.sort(key=...); offerings[0]` (lines 422-423): Python's
`list.sort` is a stable sort by the key, embedded as a stable sort
(`insertionSort` by `≤` on the key) followed by taking the head;
`none` exactly when the list is empty, which the source excludes by the
`if not offerings` guard before it. -/
def selected_offering (offerings : List Offering) : Option Offering :=
  (offerings.insertionSort offerLE).head?

/-- Modelled from the spec: the offer with the minimum start timestamp among
the candidates, ties broken by first-encountered order. -/
def firstMinOffer : List Offering → Option Offering
  | [] => none
  | a :: l =>
    match firstMinOffer l with
    | none => some a
    | some b => if b.start_date < a.start_date then some b else some a

/-! ## Request-field resolution (lines 39-66, 327-343). -/

/-- `LABEL_TO_INSTANCE_TYPE` (lines 39-48). -/
def LABEL_TO_INSTANCE_TYPE : List (String × String) :=
  [("b200", "p6-b200.48xlarge"),
   ("sm100", "p6-b200.48xlarge"),
   ("blackwell", "p6-b200.48xlarge"),
   ("h100", "p5.48xlarge"),
   ("sm90", "p5.48xlarge"),
   ("hopper", "p5.48xlarge")]

/-- `get_instance_type_from_labels` (lines 51-66): first label whose
lowercase form is a key of the mapping wins; no labels or no match gives
`None`. -/
def get_instance_type_from_labels : List String → Option String
  | [] => none
  | label :: rest =>
    match LABEL_TO_INSTANCE_TYPE.lookup label.toLower with
    | some it => some it
    | none => get_instance_type_from_labels rest

/-- Option-String truthiness of a Python `str` field that may be missing:
`None` and `''` are falsy. -/
def truthy : Option String → Bool
  | none => false
  | some s => !(s = "")

/-- Instance-type resolution (lines 331-337): explicit event field if
truthy, else label lookup when labels are non-empty, else the configured
default. -/
def resolve_instance_type (default_instance_type : String)
    (ev_instance_type : Option String) (labels : List String) : String :=
  let it0 := if truthy ev_instance_type then ev_instance_type else none
  let it1 :=
    match it0 with
    | some s => some s
    | none =>
      if labels.isEmpty then none else get_instance_type_from_labels labels
  match it1 with
  | some s => s
  | none => default_instance_type

/-- Availability-zone resolution (lines 339-343): the event field defaults
to the `AVAILABILITY_ZONE` environment value; if that is falsy (empty), the
first zone detected from the configured subnets (`subnet_azs`), or `None`
when there are none. -/
def resolve_az (env_az : String) (ev_az : Option String)
    (subnet_azs : List String) : Option String :=
  let az := ev_az.getD env_az
  if az = "" then subnet_azs.head? else some az

/-! ## The Lambda handler (lines 315-454). -/

/-- Environment configuration read at module load (lines 32-36). -/
structure Env where
  default_instance_type : String
  duration_hours : Nat
  availability_zone : String
  subnet_azs : List String
  deriving Repr

/-- The event fields the handler reads (lines 327-340). -/
structure Event where
  action : Option String
  labels : List String
  duration_hours : Option Nat
  instance_type : Option String
  availability_zone : Option String
  deriving Repr

/-- External state and outcomes of the provider calls made during one
invocation: the reservations backing `describe_capacity_reservations`, the
offerings backing `describe_capacity_block_offerings` (already scoped
server-side to the instance type, duration and time window), the SSM lock
parameter for the resolved instance type, error flags for the SSM lock
read/write, the outcome of `purchase_capacity_block` (`some id` on success,
`none` on failure), and the current time in minutes. -/
structure World where
  reservations : List CapacityReservation
  catalog : List Offering
  lockStore : Option Int
  readErr : Bool
  writeErr : Bool
  purchaseOutcome : Option String
  now : Int
  deriving Repr

/-- The response dict of `handler`; fields the various returns populate.
`errorUnknown` is true exactly on the fall-through `Unknown action` return
(lines 451-454). -/
structure HandlerOut where
  statusCode : Nat
  action : String
  result : Option String := none
  capacity_block : Option CBRecord := none
  offering : Option Offering := none
  reservation_id : Option String := none
  active_capacity_blocks : Option (List CBRecord) := none
  has_active_cb : Option Bool := none
  errorUnknown : Bool := false
  deriving Repr

/-- Externally visible effects of one invocation: the SSM lock parameter as
the invocation leaves it, and the offering ids submitted to
`purchase_capacity_block`. -/
structure Effects where
  lockStore : Option Int
  purchases : List String
  deriving Repr

/-- The `action == 'purchase'` branch (lines 397-449): take the per-type
lock; denied → `locked`.  Granted → list offerings (zone-filtered
client-side); empty → `no_offerings`; else sort by start date, take the
first, submit the purchase; success → `purchased`, failure → `failed`.  The
`finally` clears the lock on every path out of the `try`. -/
def purchase_branch (w : World) (az : Option String) :
    HandlerOut × Effects :=
  let s := set_purchase_lock w.now w.readErr w.writeErr w.lockStore
  if !s.1 then
    ({ statusCode := 200, action := "purchase", result := some "locked" },
     { lockStore := s.2, purchases := [] })
  else
    let offerings := get_capacity_block_offerings w.catalog az
    match selected_offering offerings with
    | none =>
      ({ statusCode := 404, action := "purchase",
         result := some "no_offerings" },
       { lockStore := clear_purchase_lock s.2, purchases := [] })
    | some sel =>
      match w.purchaseOutcome with
      | some rid =>
        ({ statusCode := 200, action := "purchase",
           result := some "purchased", reservation_id := some rid,
           offering := some sel },
         { lockStore := clear_purchase_lock s.2,
           purchases := [sel.offering_id] })
      | none =>
        ({ statusCode := 500, action := "purchase",
           result := some "failed" },
         { lockStore := clear_purchase_lock s.2,
           purchases := [sel.offering_id] })

/-- `handler(event, context)` (lines 315-454).  Dispatch: `check`/`status`
report the all-zone reservation list without touching the lock; `ensure`
returns `exists` on any active reservation in any zone, `pending` on any
pending/payment-pending one, and otherwise falls through to the purchase
branch (the source reassigns `action = 'purchase'`); `purchase` goes there
directly; anything else returns 400 `Unknown action`. -/
def handler (env : Env) (w : World) (ev : Event) : HandlerOut × Effects :=
  let action := ev.action.getD "ensure"
  let instance_type :=
    resolve_instance_type env.default_instance_type ev.instance_type
      ev.labels
  let az := resolve_az env.availability_zone ev.availability_zone
    env.subnet_azs
  let active_cbs_all_az :=
    get_active_capacity_blocks w.reservations instance_type none
  if action = "check" ∨ action = "status" then
    ({ statusCode := 200, action := action,
       active_capacity_blocks := some active_cbs_all_az,
       has_active_cb := some (!active_cbs_all_az.isEmpty) },
     { lockStore := w.lockStore, purchases := [] })
  else if action = "ensure" then
    match active_cbs_all_az.filter (fun cb => cb.state = "active") with
    | cb :: _ =>
      ({ statusCode := 200, action := "ensure", result := some "exists",
         capacity_block := some cb },
       { lockStore := w.lockStore, purchases := [] })
    | [] =>
      match active_cbs_all_az.filter
          (fun cb => cb.state = "pending" || cb.state = "payment-pending")
        with
      | cb :: _ =>
        ({ statusCode := 200, action := "ensure", result := some "pending",
           capacity_block := some cb },
         { lockStore := w.lockStore, purchases := [] })
      | [] => purchase_branch w az
  else if action = "purchase" then purchase_branch w az
  else
    ({ statusCode := 400, action := action, errorUnknown := true },
     { lockStore := w.lockStore, purchases := [] })

/-! ## Concurrency model for the lock race.

Two concurrent `ensure` invocations of the handler for the same instance
type, each on its own host, sharing only the SSM parameter store.  Each
provider/SSM API call of the source is one atomic step; the scenario fixes
the environment both invocations observe: `describe_capacity_reservations`
returns no records, the offering catalog is non-empty, and no SSM or
purchase call errors.  The program counter walks the calls an `ensure`
invocation makes on that path:
`dirRead` (line 349) → `lockRead` (`ssm.get_parameter`, line 192, inside
`check_purchase_lock` called from `set_purchase_lock`) → `lockWrite`
(`ssm.put_parameter`, line 229) → `catalogRead` (line 410) → `purch`
(`ec2.purchase_capacity_block`, line 430) → `release`
(`ssm.delete_parameter` in the `finally`, line 449) → `done`.
The decisive non-atomicity is that `lockRead` and `lockWrite` are separate
store operations. -/

inductive Pc where
  | dirRead
  | lockRead
  | lockWrite
  | catalogRead
  | purch
  | release
  | done
  deriving DecidableEq, Repr

structure Inv where
  pc : Pc
  result : Option String
  deriving DecidableEq, Repr

/-- Global state of the two-invocation system: the shared lock parameter,
the offering ids submitted to `purchase_capacity_block` so far (with the
index of the submitting invocation), and both invocations. -/
structure Sys where
  lease : Option Int
  purchases : List Nat
  inv0 : Inv
  inv1 : Inv
  deriving DecidableEq, Repr

/-- One atomic step of invocation `i` under the fixed scenario; `now` is
the shared clock (both invocations run well inside one 10-minute TTL
window). -/
def stepInv (now : Int) (lease : Option Int) (i : Nat)
    (purchases : List Nat) (v : Inv) :
    Option Int × List Nat × Inv :=
  match v.pc with
  | Pc.dirRead =>
    -- no active or pending reservation: fall through to the purchase branch
    (lease, purchases, { v with pc := Pc.lockRead })
  | Pc.lockRead =>
    -- ssm.get_parameter inside check_purchase_lock
    (match lease with
     | none => (lease, purchases, { v with pc := Pc.lockWrite })
     | some t =>
       if now - t > 10 then (none, purchases, { v with pc := Pc.lockWrite })
       else (lease, purchases,
             { v with pc := Pc.done, result := some "locked" }))
  | Pc.lockWrite =>
    -- ssm.put_parameter in set_purchase_lock
    (some now, purchases, { v with pc := Pc.catalogRead })
  | Pc.catalogRead =>
    -- non-empty offering list in the scenario
    (lease, purchases, { v with pc := Pc.purch })
  | Pc.purch =>
    -- ec2.purchase_capacity_block succeeds
    (lease, purchases ++ [i], { v with pc := Pc.release })
  | Pc.release =>
    -- clear_purchase_lock in the finally
    (none, purchases, { v with pc := Pc.done, result := some "purchased" })
  | Pc.done => (lease, purchases, v)

/-- Run one step of the invocation the schedule picks (0 or 1). -/
def stepSys (now : Int) (s : Sys) (i : Nat) : Sys :=
  if i = 0 then
    let r := stepInv now s.lease 0 s.purchases s.inv0
    { s with lease := r.1, purchases := r.2.1, inv0 := r.2.2 }
  else
    let r := stepInv now s.lease 1 s.purchases s.inv1
    { s with lease := r.1, purchases := r.2.1, inv1 := r.2.2 }

def runSchedule (now : Int) (s : Sys) : List Nat → Sys
  | [] => s
  | i :: rest => runSchedule now (stepSys now s i) rest

def initSys : Sys :=
  { lease := none, purchases := [],
    inv0 := { pc := Pc.dirRead, result := none },
    inv1 := { pc := Pc.dirRead, result := none } }

/-- The interleaving in which both invocations execute `get_parameter`
before either executes `put_parameter`. -/
def raceSchedule : List Nat := [0, 1, 0, 1, 0, 1, 0, 1, 0, 1, 0, 1]

/-! ## Concrete data for witness instantiations. -/

def offerAt (oid start : String) : Offering :=
  { offering_id := oid, instance_type := "p5.48xlarge",
    availability_zone := "us-east-1a", instance_count := 1,
    start_date := start, end_date := "2025-01-20T00:00:00+00:00",
    duration_hours := 24, upfront_fee := "100" }

/-- The spec's example: offers starting at T+3d, T+1d, T+7d
(T = 2025-01-01). -/
def offersEx : List Offering :=
  [offerAt "o-t3" "2025-01-04T00:00:00+00:00",
   offerAt "o-t1" "2025-01-02T00:00:00+00:00",
   offerAt "o-t7" "2025-01-08T00:00:00+00:00"]

def envEx : Env :=
  { default_instance_type := "p6-b200.48xlarge", duration_hours := 24,
    availability_zone := "us-east-1a", subnet_azs := ["us-east-1a"] }

def reservationEx (zone state : String) : CapacityReservation :=
  { capacityReservationId := "cr-" ++ zone ++ "-" ++ state, state := state,
    instanceType := "p5.48xlarge", availabilityZone := zone,
    availableInstanceCount := 0, totalInstanceCount := 8,
    startDate := some "2025-01-01T00:00:00+00:00",
    endDate := some "2025-01-02T00:00:00+00:00" }

def worldEx (reservations : List CapacityReservation) : World :=
  { reservations := reservations, catalog := offersEx, lockStore := none,
    readErr := false, writeErr := false,
    purchaseOutcome := some "cr-new", now := 0 }

def eventEx (action : String) : Event :=
  { action := some action, labels := [],
    duration_hours := none, instance_type := some "p5.48xlarge",
    availability_zone := some "us-east-1a" }

/-! ## Helper lemmas. -/

theorem mem_get_active_capacity_blocks
    {reservations : List CapacityReservation} {instance_type : String}
    {az : Option String} {cb : CBRecord} :
    cb ∈ get_active_capacity_blocks reservations instance_type az ↔
      ∃ cr ∈ reservations,
        matchesReservationFilters instance_type az cr = true ∧
        cr.endDate.isSome = true ∧ cb = toCBRecord cr := by
  simp only [get_active_capacity_blocks, List.mem_map, List.mem_filter]
  constructor
  · rintro ⟨cr, ⟨⟨hmem, hfil⟩, hend⟩, rfl⟩
    exact ⟨cr, hmem, hfil, hend, rfl⟩
  · rintro ⟨cr, hmem, hfil, hend, rfl⟩
    exact ⟨cr, ⟨⟨hmem, hfil⟩, hend⟩, rfl⟩

theorem head_orderedInsert_cons (a b : Offering) (t : List Offering) :
    ((b :: t).orderedInsert offerLE a).head? =
      some (if offerLE a b then a else b) := by
  by_cases h : offerLE a b
  · simp [List.orderedInsert, h]
  · simp [List.orderedInsert, h]

theorem firstMinOffer_eq_none_iff (l : List Offering) :
    firstMinOffer l = none ↔ l = [] := by
  cases l with
  | nil => simp [firstMinOffer]
  | cons a t =>
    simp only [firstMinOffer]
    cases firstMinOffer t with
    | none => simp
    | some b =>
      by_cases h : b.start_date < a.start_date
      · simp [h]
      · simp [h]

theorem selected_offering_eq_firstMinOffer (l : List Offering) :
    selected_offering l = firstMinOffer l := by
  induction l with
  | nil => rfl
  | cons a l ih =>
    have h1 : selected_offering (a :: l) =
        ((List.insertionSort offerLE l).orderedInsert offerLE a).head? := rfl
    rw [h1]
    cases hs : List.insertionSort offerLE l with
    | nil =>
      have hn : firstMinOffer l = none := by
        rw [← ih]; simp [selected_offering, hs]
      simp [List.orderedInsert, firstMinOffer, hn]
    | cons b t =>
      have hb : firstMinOffer l = some b := by
        rw [← ih]; simp [selected_offering, hs]
      rw [head_orderedInsert_cons]
      simp only [firstMinOffer, hb]
      by_cases hle : offerLE a b
      · have hle' : a.start_date ≤ b.start_date := hle
        rw [if_pos hle, if_neg (not_lt_of_le hle')]
      · have hlt : b.start_date < a.start_date :=
          lt_of_not_le (fun hc => hle hc)
        rw [if_neg hle, if_pos hlt]

theorem firstMinOffer_spec (l : List Offering) :
    ∀ o, firstMinOffer l = some o →
      o ∈ l ∧ ∀ p ∈ l, o.start_date ≤ p.start_date := by
  induction l with
  | nil => intro o h; simp [firstMinOffer] at h
  | cons a l ih =>
    intro o h
    simp only [firstMinOffer] at h
    cases hl : firstMinOffer l with
    | none =>
      have hnil : l = [] := (firstMinOffer_eq_none_iff l).mp hl
      rw [hl] at h
      simp only [Option.some.injEq] at h
      subst h
      subst hnil
      exact ⟨List.mem_cons_self _ _, by simp⟩
    | some b =>
      rw [hl] at h
      obtain ⟨hbmem, hbmin⟩ := ih b hl
      by_cases hb : b.start_date < a.start_date
      · simp only [hb, if_true, Option.some.injEq] at h
        subst h
        refine ⟨List.mem_cons_of_mem a hbmem, ?_⟩
        intro p hp
        rcases List.mem_cons.mp hp with rfl | hp'
        · exact le_of_lt hb
        · exact hbmin p hp'
      · simp only [hb, if_false, Option.some.injEq] at h
        subst h
        refine ⟨List.mem_cons_self _ _, ?_⟩
        intro p hp
        rcases List.mem_cons.mp hp with rfl | hp'
        · exact le_refl _
        · exact le_trans (not_lt.mp hb) (hbmin p hp')

theorem purchase_branch_errorUnknown (w : World) (az : Option String) :
    (purchase_branch w az).1.errorUnknown = false := by
  unfold purchase_branch
  dsimp only
  split
  · rfl
  · split
    · rfl
    · split <;> rfl

theorem instance_type_of_mem_get_active
    {reservations : List CapacityReservation} {it : String}
    {az : Option String} {cb : CBRecord}
    (h : cb ∈ get_active_capacity_blocks reservations it az) :
    cb.instance_type = it := by
  obtain ⟨cr, _, hfil, _, rfl⟩ := mem_get_active_capacity_blocks.mp h
  simp only [matchesReservationFilters, Bool.and_eq_true,
    decide_eq_true_eq] at hfil
  simp [toCBRecord, hfil.1.1]

theorem resolve_instance_type_of_some (d : String) (labels : List String)
    {it : String} {evIt : Option String}
    (hit : evIt = some it) (hit0 : it ≠ "") :
    resolve_instance_type d evIt labels = it := by
  subst hit
  simp [resolve_instance_type, truthy, hit0]

theorem handler_check_status (env : Env) (w : World) (ev : Event)
    (a : String) (ha : ev.action = some a)
    (h : a = "check" ∨ a = "status") :
    handler env w ev =
      ({ statusCode := 200, action := a,
         active_capacity_blocks := some (get_active_capacity_blocks
           w.reservations (resolve_instance_type env.default_instance_type
             ev.instance_type ev.labels) none),
         has_active_cb := some (!(get_active_capacity_blocks w.reservations
           (resolve_instance_type env.default_instance_type ev.instance_type
             ev.labels) none).isEmpty) },
       { lockStore := w.lockStore, purchases := [] }) := by
  rcases h with rfl | rfl <;>
    (simp only [handler, ha, Option.getD_some]
     rw [if_pos (by simp)])

theorem handler_ensure_exists (env : Env) (w : World) (ev : Event)
    (cb : CBRecord) (rest : List CBRecord)
    (ha : ev.action = some "ensure")
    (hacts : (get_active_capacity_blocks w.reservations
        (resolve_instance_type env.default_instance_type ev.instance_type
          ev.labels) none).filter (fun c => c.state = "active") =
      cb :: rest) :
    handler env w ev =
      ({ statusCode := 200, action := "ensure", result := some "exists",
         capacity_block := some cb },
       { lockStore := w.lockStore, purchases := [] }) := by
  simp only [handler, ha, Option.getD_some]
  rw [if_neg (by simp), if_pos trivial, hacts]

theorem handler_ensure_pending (env : Env) (w : World) (ev : Event)
    (cb : CBRecord) (rest : List CBRecord)
    (ha : ev.action = some "ensure")
    (hacts : (get_active_capacity_blocks w.reservations
        (resolve_instance_type env.default_instance_type ev.instance_type
          ev.labels) none).filter (fun c => c.state = "active") = [])
    (hpend : (get_active_capacity_blocks w.reservations
        (resolve_instance_type env.default_instance_type ev.instance_type
          ev.labels) none).filter
        (fun c => c.state = "pending" || c.state = "payment-pending") =
      cb :: rest) :
    handler env w ev =
      ({ statusCode := 200, action := "ensure", result := some "pending",
         capacity_block := some cb },
       { lockStore := w.lockStore, purchases := [] }) := by
  simp only [handler, ha, Option.getD_some]
  rw [if_neg (by simp), if_pos trivial, hacts, hpend]

/-! ## Claim theorems. -/

/-- C1: counterexample run.  Under the interleaving in which both `ensure`
invocations execute the lock-read (`ssm.get_parameter`) before either
executes the lock-write (`ssm.put_parameter`), both invocations are granted
the purchase lock, both submit a purchase, and both terminate with result
`purchased` — two acquisitions are submitted for the same instance type
starting from no existing reservation, where the claim allows at most
one. -/
theorem purchase_lock_race_two_purchases :
    (runSchedule 0 initSys raceSchedule).purchases = [0, 1] ∧
    (runSchedule 0 initSys raceSchedule).inv0.result = some "purchased" ∧
    (runSchedule 0 initSys raceSchedule).inv1.result = some "purchased" :=
  ⟨rfl, rfl, rfl⟩

/-- C3: counterexample.  A generic error while reading the lock parameter
(`readErr = true`) with an unexpired lease present (`now = 0`, lease stamp
`0`) does not deny the acquisition: `set_purchase_lock` returns `True`
(lock acquired) and overwrites the lease.  The claim states any read error
yields denied. -/
theorem set_purchase_lock_read_error_grants :
    set_purchase_lock 0 true false (some 0) = (true, some 0) := rfl

/-- C3 (amended): on a generic lock-read error the source logs a warning
and reports the lock as *not* held (fail open): `check_purchase_lock`
returns `False` leaving the store unchanged, and `set_purchase_lock`
(absent a write error) proceeds to acquire, stamping a fresh lease — even
when an unexpired lease exists.  Only a write error then yields `False`,
with the store as the check left it. -/
theorem set_purchase_lock_read_error_fail_open (now : Int)
    (store : Option Int) :
    check_purchase_lock now true store = (false, store) ∧
    set_purchase_lock now true false store = (true, some now) :=
  ⟨rfl, rfl⟩

/-- C5: a lease strictly older than 10 minutes is reclaimed by the next
`set_purchase_lock` call: `check_purchase_lock` deletes the stale record
and reports unlocked, and (absent read/write errors) `set_purchase_lock`
grants the lock with a fresh stamp, regardless of who wrote the old lease;
a lease aged at most 10 minutes leaves `set_purchase_lock` denied. -/
theorem set_purchase_lock_ttl_reclaim (now t : Int) (writeErr : Bool) :
    (10 < now - t →
      check_purchase_lock now false (some t) = (false, none) ∧
      set_purchase_lock now false false (some t) = (true, some now)) ∧
    (now - t ≤ 10 →
      set_purchase_lock now false writeErr (some t) = (false, some t)) := by
  constructor
  · intro h
    constructor
    · simp [check_purchase_lock, h]
    · simp [set_purchase_lock, check_purchase_lock, h]
  · intro h
    simp [set_purchase_lock, check_purchase_lock, not_lt.mpr h]

/-- C5 witness: an 11-minute-old lease is reclaimed (lock granted, fresh
stamp); an exactly-10-minute-old lease is not (denied, lease kept). -/
theorem set_purchase_lock_ttl_reclaim_witness :
    ((10 : Int) < 11 - 0 ∧
      set_purchase_lock 11 false false (some 0) = (true, some 11)) ∧
    ((11 : Int) - 1 ≤ 10 ∧
      set_purchase_lock 11 false false (some 1) = (false, some 1)) :=
  ⟨⟨by decide, ((set_purchase_lock_ttl_reclaim 11 0 false).1 (by decide)).2⟩,
   ⟨by decide, (set_purchase_lock_ttl_reclaim 11 1 false).2 (by decide)⟩⟩

/-- C9: `clear_purchase_lock` is idempotent: with no lease present the
deletion raises only `ParameterNotFound`, which the source passes over, so
the call completes and leaves no lease; applying it twice leaves the same
store as applying it once. -/
theorem clear_purchase_lock_idempotent :
    clear_purchase_lock none = none ∧
    ∀ s : Option Int,
      clear_purchase_lock (clear_purchase_lock s) = clear_purchase_lock s :=
  ⟨rfl, fun _ => rfl⟩

/-- C10: a `set_purchase_lock` call denied because an unexpired lease
exists (error-free read, age at most 10 minutes) leaves the lease record
exactly as it was — not refreshed, overwritten or deleted; and in general
the only store mutation any denied call performs is deleting a lease older
than 10 minutes. -/
theorem set_purchase_lock_denied_frame (now t : Int) (writeErr : Bool)
    (h : now - t ≤ 10) :
    set_purchase_lock now false writeErr (some t) = (false, some t) ∧
    ∀ (rE wE : Bool) (s : Option Int),
      (set_purchase_lock now rE wE s).1 = false →
        (set_purchase_lock now rE wE s).2 = s ∨
        ∃ u, s = some u ∧ 10 < now - u ∧
          (set_purchase_lock now rE wE s).2 = none := by
  constructor
  · simp [set_purchase_lock, check_purchase_lock, not_lt.mpr h]
  · intro rE wE s hf
    cases rE with
    | true =>
      cases wE with
      | true => left; rfl
      | false => simp [set_purchase_lock, check_purchase_lock] at hf
    | false =>
      cases s with
      | none =>
        cases wE with
        | true => left; rfl
        | false => simp [set_purchase_lock, check_purchase_lock] at hf
      | some u =>
        by_cases hu : now - u > 10
        · cases wE with
          | true =>
            right
            exact ⟨u, rfl, hu,
              by simp [set_purchase_lock, check_purchase_lock, hu]⟩
          | false =>
            simp [set_purchase_lock, check_purchase_lock, hu] at hf
        · left
          simp [set_purchase_lock, check_purchase_lock, hu]

/-- C10 witness: a 5-minute-old lease denies the call and is returned
untouched. -/
theorem set_purchase_lock_denied_frame_witness :
    (5 : Int) - 0 ≤ 10 ∧
    set_purchase_lock 5 false false (some 0) = (false, some 0) :=
  ⟨by decide, (set_purchase_lock_denied_frame 5 0 false (by decide)).1⟩

/-- C4: for a non-empty offering list, the selected offer
(`offerings.sort(key=start_date); offerings[0]`) is an offer of the list
with minimum start timestamp, and equals `firstMinOffer` — the
spec-side selection "minimum start timestamp, ties broken by
first-encountered order". -/
theorem offer_selection_min_start (l : List Offering) (h : l ≠ []) :
    ∃ o, selected_offering l = some o ∧ o ∈ l ∧
      (∀ p ∈ l, o.start_date ≤ p.start_date) ∧
      selected_offering l = firstMinOffer l := by
  cases hf : firstMinOffer l with
  | none => exact absurd ((firstMinOffer_eq_none_iff l).mp hf) h
  | some o =>
    obtain ⟨hmem, hmin⟩ := firstMinOffer_spec l o hf
    exact ⟨o, (selected_offering_eq_firstMinOffer l).trans hf, hmem, hmin,
      (selected_offering_eq_firstMinOffer l).trans hf⟩

/-- C4 witness: on the spec's example — offers starting T+3d, T+1d, T+7d —
the T+1d offer is selected. -/
theorem offer_selection_min_start_witness :
    offersEx ≠ [] ∧
    (∃ o, selected_offering offersEx = some o ∧ o ∈ offersEx ∧
      (∀ p ∈ offersEx, o.start_date ≤ p.start_date) ∧
      selected_offering offersEx = firstMinOffer offersEx) ∧
    selected_offering offersEx =
      some (offerAt "o-t1" "2025-01-02T00:00:00+00:00") :=
  ⟨by simp [offersEx, offerAt],
   offer_selection_min_start offersEx (by simp [offersEx, offerAt]),
   by
    rw [selected_offering_eq_firstMinOffer]
    simp only [offersEx, firstMinOffer, offerAt, String.lt_iff_toList_lt]
    decide⟩

/-- C2: for an `ensure` request naming instance type `it`, if any
reservation record for `it` with state `active` and an end date exists in
the provider's directory — in whatever availability zone, and whatever zone
the request names — the handler returns `exists` carrying an active record
of type `it`, writes or deletes no lease, and submits no purchase.  The
duplicate-prevention query in the embedding is `get_active_capacity_blocks
w.reservations it none`: never zone-scoped. -/
theorem ensure_exists_any_zone (env : Env) (w : World) (ev : Event)
    (it : String) (r : CapacityReservation)
    (ha : ev.action = some "ensure")
    (hit : ev.instance_type = some it) (hit0 : it ≠ "")
    (hr : r ∈ w.reservations) (hstate : r.state = "active")
    (htype : r.instanceType = it) (hend : r.endDate.isSome = true) :
    (handler env w ev).1.statusCode = 200 ∧
    (handler env w ev).1.result = some "exists" ∧
    (∃ cb, (handler env w ev).1.capacity_block = some cb ∧
      cb.state = "active" ∧ cb.instance_type = it) ∧
    (handler env w ev).2.lockStore = w.lockStore ∧
    (handler env w ev).2.purchases = [] := by
  have hres := resolve_instance_type_of_some env.default_instance_type
    ev.labels hit hit0
  have hmem : toCBRecord r ∈
      get_active_capacity_blocks w.reservations it none :=
    mem_get_active_capacity_blocks.mpr
      ⟨r, hr, by simp [matchesReservationFilters, htype, hstate], hend, rfl⟩
  have hmf : toCBRecord r ∈
      (get_active_capacity_blocks w.reservations it none).filter
        (fun c => c.state = "active") :=
    List.mem_filter.mpr ⟨hmem, by simp [toCBRecord, hstate]⟩
  cases hacts : (get_active_capacity_blocks w.reservations it none).filter
      (fun c => c.state = "active") with
  | nil => rw [hacts] at hmf; exact absurd hmf (List.not_mem_nil _)
  | cons cb rest =>
    have hcbmem : cb ∈
        (get_active_capacity_blocks w.reservations it none).filter
          (fun c => c.state = "active") := by
      rw [hacts]; exact List.mem_cons_self _ _
    have hcbstate : cb.state = "active" := by
      have h2 := (List.mem_filter.mp hcbmem).2
      simpa using h2
    have hcbit : cb.instance_type = it :=
      instance_type_of_mem_get_active (List.mem_filter.mp hcbmem).1
    rw [handler_ensure_exists env w ev cb rest ha
      (by rw [hres]; exact hacts)]
    exact ⟨rfl, rfl, ⟨cb, rfl, hcbstate, hcbit⟩, rfl, rfl⟩

/-- C2 witness: the active reservation sits in `us-east-1b` while the
request names zone `us-east-1a`; `ensure` still answers `exists` with no
lease touched and no purchase. -/
theorem ensure_exists_any_zone_witness :
    ((handler envEx (worldEx [reservationEx "us-east-1b" "active"])
        (eventEx "ensure")).1.statusCode = 200 ∧
      (handler envEx (worldEx [reservationEx "us-east-1b" "active"])
        (eventEx "ensure")).1.result = some "exists" ∧
      (∃ cb, (handler envEx (worldEx [reservationEx "us-east-1b" "active"])
          (eventEx "ensure")).1.capacity_block = some cb ∧
        cb.state = "active" ∧ cb.instance_type = "p5.48xlarge") ∧
      (handler envEx (worldEx [reservationEx "us-east-1b" "active"])
        (eventEx "ensure")).2.lockStore = none ∧
      (handler envEx (worldEx [reservationEx "us-east-1b" "active"])
        (eventEx "ensure")).2.purchases = []) ∧
    (eventEx "ensure").availability_zone = some "us-east-1a" ∧
    (reservationEx "us-east-1b" "active").availabilityZone = "us-east-1b" :=
  ⟨ensure_exists_any_zone envEx (worldEx [reservationEx "us-east-1b" "active"])
      (eventEx "ensure") "p5.48xlarge" (reservationEx "us-east-1b" "active")
      rfl rfl (by decide) (List.mem_cons_self _ _) rfl rfl rfl,
   rfl, rfl⟩

/-- C7: for an `ensure` request naming instance type `it`, when no
time-bound reservation record for `it` in any zone is `active` but at least
one is `pending` or `payment-pending`, the handler returns `pending`
carrying such a record, writes or deletes no lease, and submits no
purchase. -/
theorem ensure_pending_no_active (env : Env) (w : World) (ev : Event)
    (it : String)
    (ha : ev.action = some "ensure")
    (hit : ev.instance_type = some it) (hit0 : it ≠ "")
    (hnoact : ∀ cr ∈ w.reservations, cr.instanceType = it →
      cr.endDate.isSome = true → cr.state ≠ "active")
    (hpend : ∃ cr ∈ w.reservations, cr.instanceType = it ∧
      cr.endDate.isSome = true ∧
      (cr.state = "pending" ∨ cr.state = "payment-pending")) :
    (handler env w ev).1.statusCode = 200 ∧
    (handler env w ev).1.result = some "pending" ∧
    (∃ cb, (handler env w ev).1.capacity_block = some cb ∧
      (cb.state = "pending" ∨ cb.state = "payment-pending")) ∧
    (handler env w ev).2.lockStore = w.lockStore ∧
    (handler env w ev).2.purchases = [] := by
  have hres := resolve_instance_type_of_some env.default_instance_type
    ev.labels hit hit0
  have hactsnil : (get_active_capacity_blocks w.reservations it none).filter
      (fun c => c.state = "active") = [] := by
    apply List.filter_eq_nil_iff.mpr
    intro cb hcb
    obtain ⟨cr, hcrmem, hfil, hend, rfl⟩ :=
      mem_get_active_capacity_blocks.mp hcb
    simp only [matchesReservationFilters, Bool.and_eq_true,
      decide_eq_true_eq] at hfil
    simp only [toCBRecord, decide_eq_true_eq]
    exact hnoact cr hcrmem hfil.1.1 hend
  obtain ⟨cr, hcrmem, hcrit, hcrend, hcrst⟩ := hpend
  have hmem : toCBRecord cr ∈
      get_active_capacity_blocks w.reservations it none :=
    mem_get_active_capacity_blocks.mpr
      ⟨cr, hcrmem,
        by rcases hcrst with h | h <;>
          simp [matchesReservationFilters, hcrit, h],
        hcrend, rfl⟩
  have hmf : toCBRecord cr ∈
      (get_active_capacity_blocks w.reservations it none).filter
        (fun c => c.state = "pending" || c.state = "payment-pending") :=
    List.mem_filter.mpr
      ⟨hmem, by rcases hcrst with h | h <;> simp [toCBRecord, h]⟩
  cases hpl : (get_active_capacity_blocks w.reservations it none).filter
      (fun c => c.state = "pending" || c.state = "payment-pending") with
  | nil => rw [hpl] at hmf; exact absurd hmf (List.not_mem_nil _)
  | cons cb rest =>
    have hcbmem : cb ∈
        (get_active_capacity_blocks w.reservations it none).filter
          (fun c => c.state = "pending" || c.state = "payment-pending") := by
      rw [hpl]; exact List.mem_cons_self _ _
    have hcbstate : cb.state = "pending" ∨ cb.state = "payment-pending" := by
      have h2 := (List.mem_filter.mp hcbmem).2
      simpa using h2
    rw [handler_ensure_pending env w ev cb rest ha
      (by rw [hres]; exact hactsnil) (by rw [hres]; exact hpl)]
    exact ⟨rfl, rfl, ⟨cb, rfl, hcbstate⟩, rfl, rfl⟩

/-- C7 witness: one `payment-pending` record in `us-east-1b`, none active;
the `ensure` request (zone `us-east-1a`) gets `pending` with no lease
touched and no purchase. -/
theorem ensure_pending_no_active_witness :
    (handler envEx (worldEx [reservationEx "us-east-1b" "payment-pending"])
        (eventEx "ensure")).1.statusCode = 200 ∧
    (handler envEx (worldEx [reservationEx "us-east-1b" "payment-pending"])
        (eventEx "ensure")).1.result = some "pending" ∧
    (∃ cb, (handler envEx
          (worldEx [reservationEx "us-east-1b" "payment-pending"])
          (eventEx "ensure")).1.capacity_block = some cb ∧
      (cb.state = "pending" ∨ cb.state = "payment-pending")) ∧
    (handler envEx (worldEx [reservationEx "us-east-1b" "payment-pending"])
        (eventEx "ensure")).2.lockStore = none ∧
    (handler envEx (worldEx [reservationEx "us-east-1b" "payment-pending"])
        (eventEx "ensure")).2.purchases = [] :=
  ensure_pending_no_active envEx
    (worldEx [reservationEx "us-east-1b" "payment-pending"])
    (eventEx "ensure") "p5.48xlarge" rfl rfl (by decide)
    (by intro cr hcr _ _
        rcases List.mem_singleton.mp hcr with rfl
        decide)
    ⟨reservationEx "us-east-1b" "payment-pending",
      List.mem_cons_self _ _, rfl, rfl, Or.inr rfl⟩

/-- C8: a `check` or `status` request returns status 200 with the
reservation list queried across all zones and the `has_active_cb` flag,
leaves the lock parameter exactly as it was (no read-modify, write or
delete), and submits no purchase — whatever the directory contains. -/
theorem check_status_no_lock_no_purchase (env : Env) (w : World) (ev : Event)
    (a : String) (ha : ev.action = some a)
    (h : a = "check" ∨ a = "status") :
    (handler env w ev).1.statusCode = 200 ∧
    (handler env w ev).1.active_capacity_blocks =
      some (get_active_capacity_blocks w.reservations
        (resolve_instance_type env.default_instance_type ev.instance_type
          ev.labels) none) ∧
    (handler env w ev).1.has_active_cb =
      some (!(get_active_capacity_blocks w.reservations
        (resolve_instance_type env.default_instance_type ev.instance_type
          ev.labels) none).isEmpty) ∧
    (handler env w ev).2.lockStore = w.lockStore ∧
    (handler env w ev).2.purchases = [] := by
  rw [handler_check_status env w ev a ha h]
  exact ⟨rfl, rfl, rfl, rfl, rfl⟩

/-- C8 witness: a `status` request over a directory holding an active
reservation and with a lease in the store: the lease is returned untouched
and no purchase is submitted. -/
theorem check_status_no_lock_no_purchase_witness :
    ("status" = "check" ∨ "status" = "status") ∧
    (handler envEx
        { worldEx [reservationEx "us-east-1a" "active"] with
            lockStore := some 3 }
        (eventEx "status")).2.lockStore = some 3 ∧
    (handler envEx
        { worldEx [reservationEx "us-east-1a" "active"] with
            lockStore := some 3 }
        (eventEx "status")).2.purchases = [] ∧
    (handler envEx
        { worldEx [reservationEx "us-east-1a" "active"] with
            lockStore := some 3 }
        (eventEx "status")).1.statusCode = 200 :=
  ⟨Or.inr rfl,
   (check_status_no_lock_no_purchase envEx
      { worldEx [reservationEx "us-east-1a" "active"] with
          lockStore := some 3 }
      (eventEx "status") "status" rfl (Or.inr rfl)).2.2.2.1,
   (check_status_no_lock_no_purchase envEx
      { worldEx [reservationEx "us-east-1a" "active"] with
          lockStore := some 3 }
      (eventEx "status") "status" rfl (Or.inr rfl)).2.2.2.2,
   (check_status_no_lock_no_purchase envEx
      { worldEx [reservationEx "us-east-1a" "active"] with
          lockStore := some 3 }
      (eventEx "status") "status" rfl (Or.inr rfl)).1⟩

/-- C6: the handler accepts exactly four actions — `check`, `status`,
`ensure` and `purchase` (the spec's name for the fourth is `acquire`; in
the implementation the action string is `purchase`, and an `ensure` that
finds nothing falls through into it).  For these four the unknown-action
branch is never taken; any other action string yields the 400
`Unknown action` response with the lock parameter untouched and no
purchase submitted. -/
theorem handler_action_dispatch (env : Env) (w : World) (ev : Event)
    (a : String) (ha : ev.action = some a) :
    ((a = "check" ∨ a = "status" ∨ a = "ensure" ∨ a = "purchase") →
      (handler env w ev).1.errorUnknown = false) ∧
    (a ∉ ["check", "status", "ensure", "purchase"] →
      handler env w ev =
        ({ statusCode := 400, action := a, errorUnknown := true },
         { lockStore := w.lockStore, purchases := [] })) := by
  constructor
  · rintro (rfl | rfl | rfl | rfl)
    · rw [handler_check_status env w ev _ ha (Or.inl rfl)]
    · rw [handler_check_status env w ev _ ha (Or.inr rfl)]
    · simp only [handler, ha, Option.getD_some]
      rw [if_neg (by simp), if_pos trivial]
      split
      · rfl
      · split
        · rfl
        · exact purchase_branch_errorUnknown w _
    · simp only [handler, ha, Option.getD_some]
      rw [if_neg (by simp), if_neg (by simp), if_pos trivial]
      exact purchase_branch_errorUnknown w _
  · intro hmem
    simp only [List.mem_cons, List.mem_singleton, not_or] at hmem
    obtain ⟨h1, h2, h3, h4, -⟩ := hmem
    simp only [handler, ha, Option.getD_some]
    rw [if_neg (by simp [h1, h2]), if_neg h3, if_neg h4]

/-- C6 witness: `check` does not take the unknown-action branch; the
unrecognized action `reboot` yields the 400 response with the lock and
purchase effects empty. -/
theorem handler_action_dispatch_witness :
    (handler envEx (worldEx []) (eventEx "check")).1.errorUnknown = false ∧
    ("reboot" ∉ ["check", "status", "ensure", "purchase"] ∧
      handler envEx (worldEx []) (eventEx "reboot") =
        ({ statusCode := 400, action := "reboot", errorUnknown := true },
         { lockStore := none, purchases := [] })) :=
  ⟨(handler_action_dispatch envEx (worldEx []) (eventEx "check")
      "check" rfl).1 (Or.inl rfl),
   by decide,
   (handler_action_dispatch envEx (worldEx []) (eventEx "reboot")
      "reboot" rfl).2 (by decide)⟩

end CBManager
